import Mathlib

/-
Formal model of the trial-search loop of src/ssnb/algos/td3_optuna_proto/optuna.py.

OmegaConf configurations are mutable attribute trees, so they are embedded as a
heap of nodes (association lists from string keys to values) addressed by
natural numbers; attribute reads and writes go through the heap.  The external
collaborators (the optuna trial draw functions, the training-step function
invoked by name, the median pruner and the study loop) are modelled by their
documented contracts where the claims need them; each such definition carries a
comment saying what it stands for.
-/

set_option maxRecDepth 10000
set_option maxHeartbeats 3200000

/-- A value stored under a configuration key: a number (Python ints and floats
are both modelled as rationals), a list of numbers, a reference to a child
node, or Python None (what non-struct OmegaConf returns for a missing key). -/
inductive Value where
  | none
  | num (q : ℚ)
  | list (xs : List ℚ)
  | ref (a : Nat)
deriving DecidableEq

/-- A configuration node: an association list from keys to values, in
insertion order (Python dicts preserve insertion order). -/
abbrev Node := List (String × Value)

/-- Read a key from a node; a missing key reads as None, matching non-struct
OmegaConf attribute access. -/
def getKey : Node → String → Value
  | [], _ => Value.none
  | (k', v) :: rest, k => if k = k' then v else getKey rest k

/-- Overwrite a key in a node, appending it if absent. -/
def setKey : Node → String → Value → Node
  | [], k, v => [(k, v)]
  | (k', v') :: rest, k, v =>
      if k = k' then (k, v) :: rest else (k', v') :: setKey rest k v

/-- The heap of configuration nodes.  Addresses below next are allocated;
the rest read as empty nodes. -/
structure Store where
  heap : Nat → Node
  next : Nat

def Store.read (s : Store) (a : Nat) (k : String) : Value :=
  getKey (s.heap a) k

def Store.writeAt (s : Store) (a : Nat) (k : String) (v : Value) : Store :=
  { s with heap := Function.update s.heap a (setKey (s.heap a) k v) }

def Store.alloc (s : Store) (n : Node) : Store × Nat :=
  ({ heap := Function.update s.heap s.next n, next := s.next + 1 }, s.next)

/-- Follow a chain of attribute reads from address a.  An empty chain denotes
the node itself; a scalar met before the last key gives None. -/
def Store.readPath (s : Store) (a : Nat) : List String → Value
  | [] => Value.ref a
  | k :: rest =>
    match s.read a k with
    | Value.ref b => s.readPath b rest
    | v => if rest.isEmpty then v else Value.none

/-- Resolve the address of the node reached by a chain of attribute reads. -/
def Store.derefPathOpt (s : Store) (a : Nat) : List String → Option Nat
  | [] => Option.some a
  | k :: rest =>
    match s.read a k with
    | Value.ref b => s.derefPathOpt b rest
    | _ => Option.none

/-- The addresses referenced by a node's values. -/
def nodeRefs : Node → List Nat
  | [] => []
  | (_, v) :: rest =>
    match v with
    | Value.ref c => c :: nodeRefs rest
    | _ => nodeRefs rest

/-- Copy every entry of a node, copying each value with f. -/
def copyNodeWith (f : Store → Value → Store × Value) : Store → Node → Store × Node
  | s, [] => (s, [])
  | s, (k, v) :: rest =>
      match f s v with
      | (s1, v1) =>
        match copyNodeWith f s1 rest with
        | (s2, rest1) => (s2, (k, v1) :: rest1)

/-- Fuel-bounded recursive copy of a value: references are replaced by
references to freshly allocated copies of the referenced nodes. -/
def copyVal : Nat → Store → Value → Store × Value
  | 0, s, v => (s, v)
  | fuel + 1, s, Value.ref a =>
      match copyNodeWith (fun s' v' => copyVal fuel s' v') s (s.heap a) with
      | (s1, n1) =>
        match Store.alloc s1 n1 with
        | (s2, b) => (s2, Value.ref b)
  | _ + 1, s, v => (s, v)

/-- The copy made on line 20, params = cfg.copy().  OmegaConf's copy of a
DictConfig copies the whole tree (shallow copies of OmegaConf containers are
deep copies of the node tree), so every node reachable from the root is
duplicated at a fresh address.  The fuel bounds the tree depth; the
configuration trees used here have depth at most three. -/
def deepCopy (s : Store) (a : Nat) : Store × Nat :=
  match copyNodeWith (fun s' v' => copyVal 8 s' v') s (s.heap a) with
  | (s1, n1) => Store.alloc s1 n1

/-- The per-trial random draw source and pruning callback handed to the
objective by optuna.  Modelled from the spec: suggest_float and suggest_int
record the drawn value under the given name and return a draw from the given
range; should_prune is the pruning decision after the last report. -/
structure Trial where
  floatDraw : String → ℚ → ℚ → ℚ
  intDraw : String → ℚ → ℚ → ℤ
  shouldPrune : Nat → ℚ → Bool

/-- The bound pairs and fixed fields of the base configuration file.  Bounds
of parameters sampled with suggest_int are integers; the rest are floats. -/
structure BaseCfg where
  dfMin : ℚ
  dfMax : ℚ
  nsMin : ℤ
  nsMax : ℤ
  bufMin : ℤ
  bufMax : ℤ
  batMin : ℤ
  batMax : ℤ
  tauMin : ℚ
  tauMax : ℚ
  anMin : ℚ
  anMax : ℚ
  ahsMin : ℤ
  ahsMax : ℤ
  chsMin : ℤ
  chsMax : ℤ
  alrMin : ℚ
  alrMax : ℚ
  clrMin : ℚ
  clrMax : ℚ
  nTimesteps : ℤ
  maxEpoch : ℚ

def boundsNode (lo hi : ℚ) : Node :=
  [("min", Value.num lo), ("max", Value.num hi)]

/-- The base configuration tree, at addresses 0 to 14: the root holds the
algorithm and the two optimizer nodes; the algorithm node holds one bounds
node per sampled parameter, the architecture node, the total-timestep budget
and the max_epoch field. -/
def mkBaseStore (b : BaseCfg) : Store where
  next := 15
  heap := fun a =>
    match a with
    | 0 => [("algorithm", Value.ref 1), ("actor_optimizer", Value.ref 3),
            ("critic_optimizer", Value.ref 4)]
    | 1 => [("discount_factor", Value.ref 5), ("n_steps", Value.ref 6),
            ("buffer_size", Value.ref 7), ("batch_size", Value.ref 8),
            ("tau_target", Value.ref 9), ("action_noise", Value.ref 10),
            ("architecture", Value.ref 2),
            ("n_timesteps", Value.num (b.nTimesteps : ℚ)),
            ("max_epoch", Value.num b.maxEpoch)]
    | 2 => [("actor_hidden_size", Value.ref 11), ("critic_hidden_size", Value.ref 12)]
    | 3 => [("lr", Value.ref 13)]
    | 4 => [("lr", Value.ref 14)]
    | 5 => boundsNode b.dfMin b.dfMax
    | 6 => boundsNode (b.nsMin : ℚ) (b.nsMax : ℚ)
    | 7 => boundsNode (b.bufMin : ℚ) (b.bufMax : ℚ)
    | 8 => boundsNode (b.batMin : ℚ) (b.batMax : ℚ)
    | 9 => boundsNode b.tauMin b.tauMax
    | 10 => boundsNode b.anMin b.anMax
    | 11 => boundsNode (b.ahsMin : ℚ) (b.ahsMax : ℚ)
    | 12 => boundsNode (b.chsMin : ℚ) (b.chsMax : ℚ)
    | 13 => boundsNode b.alrMin b.alrMax
    | 14 => boundsNode b.clrMin b.clrMax
    | _ => []

/-- Numeric content of a value; the sources only apply this to number nodes. -/
def Value.toQ : Value → ℚ
  | Value.num q => q
  | _ => 0

/-- Result of sample_td3_params: the heap after the writes, the address of the
returned config, and the trial's recorded parameters (name, raw drawn value)
in suggestion order. -/
structure SampleResult where
  store : Store
  params : Nat
  record : List (String × ℚ)

/-- Lines 17-56, sample_td3_params(trial, cfg): copy the base configuration,
then substitute each sampled parameter.  Bounds are read from cfg (the base),
values are written into params (the copy); the Python attribute chains
params.algorithm, params.algorithm.architecture, params.actor_optimizer and
params.critic_optimizer always resolve to the same child nodes (no statement
rebinds those keys), so their addresses are resolved once after the copy.
The power-of-two parameters n_steps, actor_hidden_size and critic_hidden_size
materialize 2 to the drawn exponent; the hidden sizes are written as the pair
[v, v]; n_steps and max_epochs = int(n_timesteps // n_steps) are written last,
max_epochs by floor division (Python // on a positive divisor). -/
def sample_td3_params (trial : Trial) (s0 : Store) (cfg : Nat) : SampleResult :=
  match deepCopy s0 cfg with
  | (s1, params) =>
  let algoA := (s1.derefPathOpt params ["algorithm"]).getD 0
  let archA := (s1.derefPathOpt params ["algorithm", "architecture"]).getD 0
  let aoptA := (s1.derefPathOpt params ["actor_optimizer"]).getD 0
  let coptA := (s1.derefPathOpt params ["critic_optimizer"]).getD 0
  let df := trial.floatDraw "discount_factor"
    (s1.readPath cfg ["algorithm", "discount_factor", "min"]).toQ
    (s1.readPath cfg ["algorithm", "discount_factor", "max"]).toQ
  let s2 := s1.writeAt algoA "discount_factor" (Value.num df)
  let nsE := trial.intDraw "n_steps"
    (s2.readPath cfg ["algorithm", "n_steps", "min"]).toQ
    (s2.readPath cfg ["algorithm", "n_steps", "max"]).toQ
  let n_steps : ℚ := (2 : ℚ) ^ nsE
  let buf := trial.intDraw "buffer_size"
    (s2.readPath cfg ["algorithm", "buffer_size", "min"]).toQ
    (s2.readPath cfg ["algorithm", "buffer_size", "max"]).toQ
  let s3 := s2.writeAt algoA "buffer_size" (Value.num (buf : ℚ))
  let bat := trial.intDraw "batch_size"
    (s3.readPath cfg ["algorithm", "batch_size", "min"]).toQ
    (s3.readPath cfg ["algorithm", "batch_size", "max"]).toQ
  let s4 := s3.writeAt algoA "batch_size" (Value.num (bat : ℚ))
  let tau := trial.floatDraw "tau_target"
    (s4.readPath cfg ["algorithm", "tau_target", "min"]).toQ
    (s4.readPath cfg ["algorithm", "tau_target", "max"]).toQ
  let s5 := s4.writeAt algoA "tau_target" (Value.num tau)
  let an := trial.floatDraw "action_std"
    (s5.readPath cfg ["algorithm", "action_noise", "min"]).toQ
    (s5.readPath cfg ["algorithm", "action_noise", "max"]).toQ
  let s6 := s5.writeAt algoA "action_noise" (Value.num an)
  let ahsE := trial.intDraw "actor_hidden_size"
    (s6.readPath cfg ["algorithm", "architecture", "actor_hidden_size", "min"]).toQ
    (s6.readPath cfg ["algorithm", "architecture", "actor_hidden_size", "max"]).toQ
  let ahs : ℚ := (2 : ℚ) ^ ahsE
  let s7 := s6.writeAt archA "actor_hidden_size" (Value.list [ahs, ahs])
  let chsE := trial.intDraw "critic_hidden_size"
    (s7.readPath cfg ["algorithm", "architecture", "critic_hidden_size", "min"]).toQ
    (s7.readPath cfg ["algorithm", "architecture", "critic_hidden_size", "max"]).toQ
  let chs : ℚ := (2 : ℚ) ^ chsE
  let s8 := s7.writeAt archA "critic_hidden_size" (Value.list [chs, chs])
  let alr := trial.floatDraw "actor_lr"
    (s8.readPath cfg ["actor_optimizer", "lr", "min"]).toQ
    (s8.readPath cfg ["actor_optimizer", "lr", "max"]).toQ
  let s9 := s8.writeAt aoptA "lr" (Value.num alr)
  let clr := trial.floatDraw "critic_lr"
    (s9.readPath cfg ["critic_optimizer", "lr", "min"]).toQ
    (s9.readPath cfg ["critic_optimizer", "lr", "max"]).toQ
  let s10 := s9.writeAt coptA "lr" (Value.num clr)
  let s11 := s10.writeAt algoA "n_steps" (Value.num n_steps)
  let me : ℤ := Int.floor ((s11.readPath params ["algorithm", "n_timesteps"]).toQ / n_steps)
  let s12 := s11.writeAt algoA "max_epochs" (Value.num (me : ℚ))
  { store := s12, params := params,
    record := [("discount_factor", df), ("n_steps", (nsE : ℚ)),
               ("buffer_size", (buf : ℚ)), ("batch_size", (bat : ℚ)),
               ("tau_target", tau), ("action_std", an),
               ("actor_hidden_size", (ahsE : ℚ)), ("critic_hidden_size", (chsE : ℚ)),
               ("actor_lr", alr), ("critic_lr", clr)] }

/-- Python exception kinds relevant to the sources: AssertionError (the
value-validity failure), AttributeError (attribute access on None),
optuna.exceptions.TrialPruned, KeyboardInterrupt, ValueError (raised by
best_trial when no trial completed), and a stand-in for any other type. -/
inductive PyExc where
  | assertionError
  | attributeError
  | trialPruned
  | keyboardInterrupt
  | valueError
  | other (n : Nat)
deriving DecidableEq

/-- A Python float result: NaN or an exact number. -/
inductive PyFloat where
  | nan
  | val (q : ℚ)
deriving DecidableEq

/-- The object returned by the external training-step function: it exposes
whether an evaluation pass just completed, its mean reward, and the mean
reward at the end of training (spec section 6). -/
structure Agent where
  is_eval : Bool
  mean : ℚ
  last_mean_reward : ℚ
deriving DecidableEq

/-- The external training-step function run_td3 or run_ddpg, reached through
eval(run_algo + "(config, agent)") on line 69.  It receives the heap, the
address of the mutable config and the previous agent state; it returns the
possibly mutated heap and either the updated agent or a raised exception.
Heap mutations made before a raise persist, as in Python. -/
def TrainStep := Store → Nat → Option Agent → Store × Except PyExc Agent

/-- Number of iterations of "for epoch in range(v)"; the sources only reach
this with the integer 1 just written into max_epoch. -/
def Value.loopCount : Value → Nat
  | Value.num q => (Int.floor q).toNat
  | _ => 0

/-- The loop body of objective (lines 68-75), iterated count times: call the
training step (its return value is discarded — line 69 binds nothing, so the
local variable agent keeps its pre-loop value), then read agent.is_eval,
which raises AttributeError whenever agent is None; when an evaluation pass
is reported, trial.report(agent.mean, epoch) feeds the pruning callback and a
positive should_prune() raises TrialPruned. -/
def runEpochs (trial : Trial) (runAlgo : TrainStep) (config : Nat)
    (agent : Option Agent) : Nat → Nat → Store → Store × Except PyExc Unit
  | 0, _, s => (s, Except.ok ())
  | n + 1, epoch, s =>
    match runAlgo s config agent with
    | (s1, Except.error e) => (s1, Except.error e)
    | (s1, Except.ok _) =>
      match agent with
      | Option.none => (s1, Except.error PyExc.attributeError)
      | Option.some ag =>
        if ag.is_eval then
          if trial.shouldPrune epoch ag.mean then (s1, Except.error PyExc.trialPruned)
          else runEpochs trial runAlgo config agent n (epoch + 1) s1
        else runEpochs trial runAlgo config agent n (epoch + 1) s1

/-- Lines 58-88, objective(trial, cfg, run_algo): sample a config, save
config.algorithm.max_epoch into a local, overwrite that field with 1, run the
loop over range(config.algorithm.max_epoch), and on the in-try paths restore
the saved value; except AssertionError turns the failure into a NaN return,
every other exception propagates.  The final return reads
agent.last_mean_reward outside the try block. -/
def objective (trial : Trial) (s0 : Store) (cfg : Nat) (runAlgo : TrainStep) :
    Store × Except PyExc PyFloat :=
  let r := sample_td3_params trial s0 cfg
  let config := r.params
  let agent : Option Agent := Option.none
  match r.store.derefPathOpt config ["algorithm"] with
  | Option.none => (r.store, Except.error PyExc.attributeError)
  | Option.some al =>
    let maxv := r.store.readPath config ["algorithm", "max_epoch"]
    let s1 := r.store.writeAt al "max_epoch" (Value.num 1)
    let count := (s1.readPath config ["algorithm", "max_epoch"]).loopCount
    match runEpochs trial runAlgo config agent count 0 s1 with
    | (s2, res) =>
      match res with
      | Except.error PyExc.assertionError => (s2, Except.ok PyFloat.nan)
      | Except.error e => (s2, Except.error e)
      | Except.ok _ =>
        match s2.derefPathOpt config ["algorithm"] with
        | Option.none => (s2, Except.error PyExc.attributeError)
        | Option.some al2 =>
          let s3 := s2.writeAt al2 "max_epoch" maxv
          match agent with
          | Option.none => (s3, Except.error PyExc.attributeError)
          | Option.some ag => (s3, Except.ok (PyFloat.val ag.last_mean_reward))

/-- Instrumentation wrapper used to count invocations of the training step:
it bumps a counter stored at the reserved unallocated address 100 and then
delegates. -/
def countingStep (f : TrainStep) : TrainStep := fun s c a =>
  f (s.writeAt 100 "calls" (Value.num ((s.read 100 "calls").toQ + 1))) c a

/-- The raw draws made by sample_td3_params on the base configuration, named
for readability of the statements below. -/
def dfDraw (b : BaseCfg) (trial : Trial) : ℚ :=
  trial.floatDraw "discount_factor" b.dfMin b.dfMax

def nsExp (b : BaseCfg) (trial : Trial) : ℤ :=
  trial.intDraw "n_steps" (b.nsMin : ℚ) (b.nsMax : ℚ)

def bufDraw (b : BaseCfg) (trial : Trial) : ℤ :=
  trial.intDraw "buffer_size" (b.bufMin : ℚ) (b.bufMax : ℚ)

def batDraw (b : BaseCfg) (trial : Trial) : ℤ :=
  trial.intDraw "batch_size" (b.batMin : ℚ) (b.batMax : ℚ)

def tauDraw (b : BaseCfg) (trial : Trial) : ℚ :=
  trial.floatDraw "tau_target" b.tauMin b.tauMax

/-- The action-noise draw: recorded under the name action_std (line 38). -/
def anDraw (b : BaseCfg) (trial : Trial) : ℚ :=
  trial.floatDraw "action_std" b.anMin b.anMax

def ahsExp (b : BaseCfg) (trial : Trial) : ℤ :=
  trial.intDraw "actor_hidden_size" (b.ahsMin : ℚ) (b.ahsMax : ℚ)

def chsExp (b : BaseCfg) (trial : Trial) : ℤ :=
  trial.intDraw "critic_hidden_size" (b.chsMin : ℚ) (b.chsMax : ℚ)

def alrDraw (b : BaseCfg) (trial : Trial) : ℚ :=
  trial.floatDraw "actor_lr" b.alrMin b.alrMax

def clrDraw (b : BaseCfg) (trial : Trial) : ℚ :=
  trial.floatDraw "critic_lr" b.clrMin b.clrMax

/-- The derived iteration count int(n_timesteps // n_steps) of line 54. -/
def meDerived (b : BaseCfg) (trial : Trial) : ℤ :=
  Int.floor ((b.nTimesteps : ℚ) / (2 : ℚ) ^ nsExp b trial)

/-- The store produced by deepCopy on the base configuration, written with
literal addresses: the base tree plus its copy at addresses 15-29. -/
def S1 (b : BaseCfg) : Store where
  next := 30
  heap :=
    Function.update (Function.update (Function.update (Function.update (Function.update
    (Function.update (Function.update (Function.update (Function.update (Function.update
    (Function.update (Function.update (Function.update (Function.update (Function.update
      (mkBaseStore b).heap
      15 (boundsNode b.dfMin b.dfMax))
      16 (boundsNode (b.nsMin : ℚ) (b.nsMax : ℚ)))
      17 (boundsNode (b.bufMin : ℚ) (b.bufMax : ℚ)))
      18 (boundsNode (b.batMin : ℚ) (b.batMax : ℚ)))
      19 (boundsNode b.tauMin b.tauMax))
      20 (boundsNode b.anMin b.anMax))
      21 (boundsNode (b.ahsMin : ℚ) (b.ahsMax : ℚ)))
      22 (boundsNode (b.chsMin : ℚ) (b.chsMax : ℚ)))
      23 [("actor_hidden_size", Value.ref 21), ("critic_hidden_size", Value.ref 22)])
      24 [("discount_factor", Value.ref 15), ("n_steps", Value.ref 16),
          ("buffer_size", Value.ref 17), ("batch_size", Value.ref 18),
          ("tau_target", Value.ref 19), ("action_noise", Value.ref 20),
          ("architecture", Value.ref 23),
          ("n_timesteps", Value.num (b.nTimesteps : ℚ)),
          ("max_epoch", Value.num b.maxEpoch)])
      25 (boundsNode b.alrMin b.alrMax))
      26 [("lr", Value.ref 25)])
      27 (boundsNode b.clrMin b.clrMax))
      28 [("lr", Value.ref 27)])
      29 [("algorithm", Value.ref 24), ("actor_optimizer", Value.ref 26),
          ("critic_optimizer", Value.ref 28)]

/-- The store returned by sample_td3_params on the base configuration: the
copy with the sampled values written into its nodes. -/
def SFin (b : BaseCfg) (trial : Trial) : Store :=
  (((((((((((S1 b).writeAt
    24 "discount_factor" (Value.num (dfDraw b trial))).writeAt
    24 "buffer_size" (Value.num (bufDraw b trial : ℚ))).writeAt
    24 "batch_size" (Value.num (batDraw b trial : ℚ))).writeAt
    24 "tau_target" (Value.num (tauDraw b trial))).writeAt
    24 "action_noise" (Value.num (anDraw b trial))).writeAt
    23 "actor_hidden_size" (Value.list [(2 : ℚ) ^ ahsExp b trial, (2 : ℚ) ^ ahsExp b trial])).writeAt
    23 "critic_hidden_size" (Value.list [(2 : ℚ) ^ chsExp b trial, (2 : ℚ) ^ chsExp b trial])).writeAt
    26 "lr" (Value.num (alrDraw b trial))).writeAt
    28 "lr" (Value.num (clrDraw b trial))).writeAt
    24 "n_steps" (Value.num ((2 : ℚ) ^ nsExp b trial))).writeAt
    24 "max_epochs" (Value.num (meDerived b trial : ℚ))

/-- The parameter record of a trial sampled on the base configuration. -/
def sampleRecord (b : BaseCfg) (trial : Trial) : List (String × ℚ) :=
  [("discount_factor", dfDraw b trial), ("n_steps", (nsExp b trial : ℚ)),
   ("buffer_size", (bufDraw b trial : ℚ)), ("batch_size", (batDraw b trial : ℚ)),
   ("tau_target", tauDraw b trial), ("action_std", anDraw b trial),
   ("actor_hidden_size", (ahsExp b trial : ℚ)), ("critic_hidden_size", (chsExp b trial : ℚ)),
   ("actor_lr", alrDraw b trial), ("critic_lr", clrDraw b trial)]

/-- The normal form of the result of sample_td3_params on the base
configuration. -/
def sampleNF (b : BaseCfg) (trial : Trial) : SampleResult :=
  { store := SFin b trial, params := 29, record := sampleRecord b trial }

/-- The store after the pre-loop mutation of objective on the base
configuration: the sampled copy with config.algorithm.max_epoch set to 1. -/
def preStore (b : BaseCfg) (trial : Trial) : Store :=
  (SFin b trial).writeAt 24 "max_epoch" (Value.num 1)

/-- What objective does with the outcome of the single training call it
makes: AssertionError is caught and becomes a NaN return, any other raise
propagates, and a normal return is followed by the AttributeError raised
inside the loop when agent.is_eval is read on the still-None agent local —
before the max_epoch restore line, which is unreachable on every path. -/
def objAfterStep (out : Store × Except PyExc Agent) :
    Store × Except PyExc PyFloat :=
  match out with
  | (s2, Except.error PyExc.assertionError) => (s2, Except.ok PyFloat.nan)
  | (s2, Except.error e) => (s2, Except.error e)
  | (s2, Except.ok _) => (s2, Except.error PyExc.attributeError)

/-- The median of a list of scores (sorted middle element, or the mean of the
two middle elements). -/
def medianScore (l : List ℚ) : ℚ :=
  let s := l.insertionSort (fun x y => x ≤ y)
  let n := l.length
  if n = 0 then 0
  else if n % 2 = 1 then s.getD (n / 2) 0
  else (s.getD (n / 2 - 1) 0 + s.getD (n / 2) 0) / 2

/-- Modelled from the spec: the external optuna MedianPruner, the
median-stopping rule of section 4.3 — a trial may be pruned once its reported
score at a step falls below the median of the scores other trials reported at
the same step, but never before n_warmup_steps steps of the trial have
elapsed and never before n_startup_trials trials of the study have finished. -/
structure MedianPruner where
  n_startup_trials : Nat
  n_warmup_steps : Nat

/-- The pruning decision: completedCount is the number of finished trials of
the study, othersAtStep the scores other trials reported at this step. -/
def MedianPruner.pruneNow (p : MedianPruner) (completedCount : Nat)
    (othersAtStep : List ℚ) (step : Nat) (score : ℚ) : Bool :=
  decide (p.n_startup_trials ≤ completedCount) &&
  decide (p.n_warmup_steps ≤ step) &&
  !othersAtStep.isEmpty &&
  decide (score < medianScore othersAtStep)

/-- The study-level settings read by tune from cfg.study. -/
structure StudyCfg where
  n_startup_trials : Nat
  n_warmup_steps : Nat

/-- Line 93 of tune: MedianPruner(n_startup_trials=cfg.study.n_startup_trials,
n_warmup_steps=cfg.study.n_warmup_steps // 3) — the pruner receives a third
(floor division) of the configured warm-up-step count. -/
def tunePruner (study : StudyCfg) : MedianPruner where
  n_startup_trials := study.n_startup_trials
  n_warmup_steps := study.n_warmup_steps / 3

/-- Terminal state of a recorded trial. -/
inductive TrialState where
  | completed
  | pruned
  | failed
deriving DecidableEq

/-- A row of the study's trial record. -/
structure TrialRec where
  number : Nat
  state : TrialState
  value : PyFloat
  params : List (String × ℚ)
  userAttrs : List (String × ℚ)
deriving DecidableEq

/-- Python float comparison used to rank trial values; NaN compares false. -/
def PyFloat.ltF : PyFloat → PyFloat → Bool
  | PyFloat.val a, PyFloat.val b => decide (a < b)
  | _, _ => false

/-- Trials of the study in the completed state. -/
def completedTrials (ts : List TrialRec) : List TrialRec :=
  ts.filter (fun t => t.state = TrialState.completed)

/-- One step of best-trial selection: a strictly better value replaces the
current best, so ties keep the earliest trial. -/
def bestStep (acc : Option TrialRec) (t : TrialRec) : Option TrialRec :=
  match acc with
  | Option.none => Option.some t
  | Option.some bt => if PyFloat.ltF bt.value t.value then Option.some t else Option.some bt

/-- Modelled from the spec: optuna's study.best_trial — the best completed
trial under the maximize direction, ties broken by the earliest (section
4.4); none when no trial has completed (the attribute raises ValueError). -/
def bestTrial (ts : List TrialRec) : Option TrialRec :=
  (completedTrials ts).foldl bestStep Option.none

/-- Modelled from the spec: the outcome of the external study.optimize loop —
it either finishes normally with the accumulated trial records, or an
exception reaches tune after some trials have finished (KeyboardInterrupt is
the external-interrupt case of section 7). -/
inductive OptimizeOutcome where
  | finished (trials : List TrialRec)
  | raised (e : PyExc) (trials : List TrialRec)

/-- What tune hands to the reporting collaborators: the printed trial count
and best-trial summary, and the trial table written to CSV (the two figure
objects are derived from the same table). -/
structure TuneReport where
  numFinished : Nat
  bestValue : PyFloat
  bestParams : List (String × ℚ)
  bestUserAttrs : List (String × ℚ)
  csvRows : List TrialRec
deriving DecidableEq

/-- The reporting tail of tune (lines 101-121). -/
def tuneReportOf (ts : List TrialRec) : Except PyExc TuneReport :=
  match bestTrial ts with
  | Option.none => Except.error PyExc.valueError
  | Option.some bt =>
      Except.ok { numFinished := ts.length, bestValue := bt.value,
                  bestParams := bt.params, bestUserAttrs := bt.userAttrs,
                  csvRows := ts }

/-- Lines 90-121, tune(objective, cfg, run_algo): run study.optimize inside
try/except KeyboardInterrupt: pass, then report.  Only KeyboardInterrupt is
caught; any other exception reaching tune propagates.  The external optimize
loop is abstracted as its outcome. -/
def tune (outcome : OptimizeOutcome) : Except PyExc TuneReport :=
  match outcome with
  | OptimizeOutcome.finished ts => tuneReportOf ts
  | OptimizeOutcome.raised PyExc.keyboardInterrupt ts => tuneReportOf ts
  | OptimizeOutcome.raised e _ => Except.error e

/-- A reachability check used by the frame lemmas: every node at an address
in [lo, hi) references only addresses in [lo, hi). -/
def refsWithin (s : Store) (lo hi : Nat) : Bool :=
  (List.range hi).all (fun a =>
    decide (a < lo) || (nodeRefs (s.heap a)).all (fun rf => decide (lo ≤ rf) && decide (rf < hi)))

/-- A concrete base configuration (the bound pairs of the comments in
sample_td3_params) used to instantiate the theorems. -/
def b0 : BaseCfg where
  dfMin := 9/10
  dfMax := 9999/10000
  nsMin := 7
  nsMax := 9
  bufMin := 100000
  bufMax := 1000000
  batMin := 100
  batMax := 300
  tauMin := 1/200
  tauMax := 1/20
  anMin := 1/1000
  anMax := 1/10
  ahsMin := 5
  ahsMax := 8
  chsMin := 5
  chsMax := 8
  alrMin := 1/100000
  alrMax := 1
  clrMin := 1/100000
  clrMax := 1
  nTimesteps := 1000000
  maxEpoch := 0

/-- A concrete draw source: float draws return the lower bound, integer draws
return the ceiling of the lower bound, nothing is ever pruned. -/
def trial0 : Trial where
  floatDraw := fun _ lo _ => lo
  intDraw := fun _ lo _ => Int.ceil lo
  shouldPrune := fun _ _ => false

/-- A training step that raises the value-validity failure immediately. -/
def stepAssert : TrainStep := fun s _ _ => (s, Except.error PyExc.assertionError)

/-- A training step that raises an exception of a different type. -/
def stepOther : TrainStep := fun s _ _ => (s, Except.error (PyExc.other 0))

/-- A fixed trained agent state. -/
def ag0 : Agent where
  is_eval := true
  mean := 5
  last_mean_reward := 7

/-- A training step that returns normally with a fixed trained agent. -/
def stepOk : TrainStep := fun s _ _ => (s, Except.ok ag0)

/-- A concrete trial table: two completed trials and one failed one. -/
def trialsW : List TrialRec :=
  [ { number := 0, state := TrialState.completed, value := PyFloat.val 1,
      params := [("discount_factor", 9/10)], userAttrs := [] },
    { number := 1, state := TrialState.failed, value := PyFloat.nan,
      params := [], userAttrs := [] },
    { number := 2, state := TrialState.completed, value := PyFloat.val (5/2),
      params := [], userAttrs := [] } ]

theorem getKey_ref_mem (n : Node) (k : String) (c : Nat)
    (h : getKey n k = Value.ref c) : c ∈ nodeRefs n := by
  induction n with
  | nil => simp [getKey] at h
  | cons kv rest ih =>
      obtain ⟨k', v⟩ := kv
      by_cases hk : k = k'
      · simp only [getKey, if_pos hk] at h
        subst h
        simp [nodeRefs]
      · simp only [getKey, if_neg hk] at h
        have hm := ih h
        cases v with
        | ref d => exact List.mem_cons_of_mem _ hm
        | none => exact hm
        | num q => exact hm
        | list xs => exact hm

theorem readPath_congr (s1 s2 : Store) (P : Nat → Prop)
    (hheap : ∀ x, P x → s1.heap x = s2.heap x)
    (hcl : ∀ x, P x → ∀ rf ∈ nodeRefs (s2.heap x), P rf) :
    ∀ (q : List String) (a : Nat), P a → s1.readPath a q = s2.readPath a q := by
  intro q
  induction q with
  | nil => intro a _; rfl
  | cons k rest ih =>
      intro a ha
      have hr : s1.read a k = s2.read a k := by
        unfold Store.read; rw [hheap a ha]
      simp only [Store.readPath]
      rw [hr]
      cases hv : s2.read a k with
      | ref c => exact ih c (hcl a ha c (getKey_ref_mem _ _ _ hv))
      | none => rfl
      | num q => rfl
      | list xs => rfl

theorem derefPathOpt_mem (s : Store) (P : Nat → Prop)
    (hcl : ∀ x, P x → ∀ rf ∈ nodeRefs (s.heap x), P rf) :
    ∀ (q : List String) (a : Nat), P a → ∀ c, s.derefPathOpt a q = Option.some c → P c := by
  intro q
  induction q with
  | nil =>
      intro a ha c h
      simp only [Store.derefPathOpt, Option.some.injEq] at h
      exact h ▸ ha
  | cons k rest ih =>
      intro a ha c h
      cases hv : s.read a k with
      | ref d =>
          simp only [Store.derefPathOpt, hv] at h
          exact ih d (hcl a ha d (getKey_ref_mem _ _ _ hv)) c h
      | none =>
          simp only [Store.derefPathOpt, hv] at h
          exact Option.noConfusion h
      | num q =>
          simp only [Store.derefPathOpt, hv] at h
          exact Option.noConfusion h
      | list xs =>
          simp only [Store.derefPathOpt, hv] at h
          exact Option.noConfusion h

theorem refsWithin_spec (s : Store) (lo hi : Nat) (h : refsWithin s lo hi = true)
    (x : Nat) (hx1 : lo ≤ x) (hx2 : x < hi) :
    ∀ rf ∈ nodeRefs (s.heap x), lo ≤ rf ∧ rf < hi := by
  intro rf hrf
  unfold refsWithin at h
  rw [List.all_eq_true] at h
  have hx := h x (List.mem_range.mpr hx2)
  rw [Bool.or_eq_true] at hx
  cases hx with
  | inl hlt =>
      exfalso
      rw [decide_eq_true_eq] at hlt
      omega
  | inr hall =>
      rw [List.all_eq_true] at hall
      have hb := hall rf hrf
      rw [Bool.and_eq_true, decide_eq_true_eq, decide_eq_true_eq] at hb
      exact hb

theorem map_range_apply {α : Type} (f g : Nat → α) :
    ∀ (n : Nat), (List.range n).map f = (List.range n).map g →
      ∀ x, x < n → f x = g x := by
  intro n
  induction n with
  | zero => intro _ x hx; omega
  | succ n ih =>
      intro h x hx
      rw [List.range_succ, List.map_append, List.map_append] at h
      have hlen : ((List.range n).map f).length = ((List.range n).map g).length := by
        simp
      obtain ⟨h1, h2⟩ := List.append_inj h hlen
      rcases Nat.lt_succ_iff_lt_or_eq.mp hx with hlt | heq
      · exact ih h1 x hlt
      · subst heq
        simpa using h2

/-- The deep copy of the base configuration allocates its copy at addresses
15-29 and returns the copied root. -/
theorem deepCopy_base (b : BaseCfg) : deepCopy (mkBaseStore b) 0 = (S1 b, 29) := rfl

/-- Normal form of sampling on the base configuration: the final store, the
returned root address and the parameter record, with all node addresses
resolved. -/
theorem sample_result_eq (b : BaseCfg) (trial : Trial) :
    sample_td3_params trial (mkBaseStore b) 0 = sampleNF b trial := by
  simp only [sample_td3_params, deepCopy_base]
  rw [show ((S1 b).derefPathOpt 29 ["algorithm"]).getD 0 = 24 from rfl]
  rw [show ((S1 b).derefPathOpt 29 ["algorithm", "architecture"]).getD 0 = 23 from rfl]
  rw [show ((S1 b).derefPathOpt 29 ["actor_optimizer"]).getD 0 = 26 from rfl]
  rw [show ((S1 b).derefPathOpt 29 ["critic_optimizer"]).getD 0 = 28 from rfl]
  rfl

/-- Sampling only writes into the freshly copied nodes: the heap at the base
configuration's addresses 0-14 is untouched. -/
theorem sfin_heap_low (b : BaseCfg) (trial : Trial) :
    (List.range 15).map (SFin b trial).heap = (List.range 15).map (mkBaseStore b).heap := rfl

/-- After sampling, the copied configuration tree lives entirely at addresses
15-29. -/
theorem sfin_refs_high (b : BaseCfg) (trial : Trial) :
    refsWithin (SFin b trial) 15 30 = true := rfl

/-- The base configuration tree lives entirely at addresses 0-14. -/
theorem base_refs_low (b : BaseCfg) :
    refsWithin (mkBaseStore b) 0 15 = true := rfl

/-- Claim C6: sample_td3_params returns a fully independent copy of the base
configuration: for every base configuration and every sequence of random
draws, every attribute of the base configuration reads the same after
sampling, and still reads the same after mutating any field reachable from
the returned ResolvedConfig (including nested fields such as
algorithm.discount_factor or algorithm.architecture.actor_hidden_size). -/
theorem sample_independent_copy (b : BaseCfg) (trial : Trial) :
    (∀ q : List String,
        (sample_td3_params trial (mkBaseStore b) 0).store.readPath 0 q =
          (mkBaseStore b).readPath 0 q) ∧
    (∀ (p : List String) (k : String) (v : Value) (a : Nat),
        (sample_td3_params trial (mkBaseStore b) 0).store.derefPathOpt
            (sample_td3_params trial (mkBaseStore b) 0).params p = Option.some a →
        ∀ q : List String,
          ((sample_td3_params trial (mkBaseStore b) 0).store.writeAt a k v).readPath 0 q =
            (mkBaseStore b).readPath 0 q) := by
  rw [sample_result_eq]
  have hheap : ∀ x, x < 15 → (SFin b trial).heap x = (mkBaseStore b).heap x :=
    fun x hx => map_range_apply _ _ 15 (sfin_heap_low b trial) x hx
  have hcl : ∀ x, x < 15 → ∀ rf ∈ nodeRefs ((mkBaseStore b).heap x), rf < 15 := by
    intro x hx rf hrf
    exact (refsWithin_spec _ 0 15 (base_refs_low b) x (Nat.zero_le x) hx rf hrf).2
  refine ⟨?_, ?_⟩
  · intro q
    exact readPath_congr _ _ (fun x => x < 15) hheap hcl q 0 (by omega)
  · intro p k v a ha q
    have haHigh : 15 ≤ a ∧ a < 30 := by
      refine derefPathOpt_mem _ (fun x => 15 ≤ x ∧ x < 30) ?_ p 29 (by omega) a ha
      intro x hx rf hrf
      exact refsWithin_spec _ 15 30 (sfin_refs_high b trial) x hx.1 hx.2 rf hrf
    refine readPath_congr _ _ (fun x => x < 15) ?_ hcl q 0 (by omega)
    intro x hx
    have hne : x ≠ a := by omega
    have hupd : ((sampleNF b trial).store.writeAt a k v).heap x = (SFin b trial).heap x :=
      Function.update_noteq hne _ _
    rw [hupd]
    exact hheap x hx

/-- Claim C4: for every power-of-two-scaled parameter (n_steps,
actor_hidden_size, critic_hidden_size) with exponent bounds [a, b] and every
random draw within its contract, the materialized value produced by
sample_td3_params is 2 to an integer exponent e in [a, b], hence a power of
two lying between 2 to the a and 2 to the b; the hidden-layer sizes
replicate the single sampled width across both layers of the pair. -/
theorem sample_pow2_params (b : BaseCfg) (trial : Trial)
    (hint : ∀ (name : String) (lo hi : ℤ), lo ≤ hi →
      lo ≤ trial.intDraw name (lo : ℚ) (hi : ℚ) ∧ trial.intDraw name (lo : ℚ) (hi : ℚ) ≤ hi)
    (hns : b.nsMin ≤ b.nsMax) (hahs : b.ahsMin ≤ b.ahsMax) (hchs : b.chsMin ≤ b.chsMax) :
    (∃ e : ℤ, b.nsMin ≤ e ∧ e ≤ b.nsMax ∧
      (sample_td3_params trial (mkBaseStore b) 0).store.readPath
          (sample_td3_params trial (mkBaseStore b) 0).params ["algorithm", "n_steps"] =
        Value.num ((2 : ℚ) ^ e) ∧
      (2 : ℚ) ^ b.nsMin ≤ (2 : ℚ) ^ e ∧ (2 : ℚ) ^ e ≤ (2 : ℚ) ^ b.nsMax) ∧
    (∃ e : ℤ, b.ahsMin ≤ e ∧ e ≤ b.ahsMax ∧
      (sample_td3_params trial (mkBaseStore b) 0).store.readPath
          (sample_td3_params trial (mkBaseStore b) 0).params
          ["algorithm", "architecture", "actor_hidden_size"] =
        Value.list [(2 : ℚ) ^ e, (2 : ℚ) ^ e] ∧
      (2 : ℚ) ^ b.ahsMin ≤ (2 : ℚ) ^ e ∧ (2 : ℚ) ^ e ≤ (2 : ℚ) ^ b.ahsMax) ∧
    (∃ e : ℤ, b.chsMin ≤ e ∧ e ≤ b.chsMax ∧
      (sample_td3_params trial (mkBaseStore b) 0).store.readPath
          (sample_td3_params trial (mkBaseStore b) 0).params
          ["algorithm", "architecture", "critic_hidden_size"] =
        Value.list [(2 : ℚ) ^ e, (2 : ℚ) ^ e] ∧
      (2 : ℚ) ^ b.chsMin ≤ (2 : ℚ) ^ e ∧ (2 : ℚ) ^ e ≤ (2 : ℚ) ^ b.chsMax) := by
  rw [sample_result_eq]
  have h2 : (1 : ℚ) ≤ 2 := by norm_num
  refine ⟨⟨nsExp b trial, (hint "n_steps" _ _ hns).1, (hint "n_steps" _ _ hns).2, rfl,
      zpow_le_zpow_right₀ h2 (hint "n_steps" _ _ hns).1,
      zpow_le_zpow_right₀ h2 (hint "n_steps" _ _ hns).2⟩,
    ⟨ahsExp b trial, (hint "actor_hidden_size" _ _ hahs).1, (hint "actor_hidden_size" _ _ hahs).2, rfl,
      zpow_le_zpow_right₀ h2 (hint "actor_hidden_size" _ _ hahs).1,
      zpow_le_zpow_right₀ h2 (hint "actor_hidden_size" _ _ hahs).2⟩,
    ⟨chsExp b trial, (hint "critic_hidden_size" _ _ hchs).1, (hint "critic_hidden_size" _ _ hchs).2, rfl,
      zpow_le_zpow_right₀ h2 (hint "critic_hidden_size" _ _ hchs).1,
      zpow_le_zpow_right₀ h2 (hint "critic_hidden_size" _ _ hchs).2⟩⟩

/-- Claim C5: for every positive total-timestep budget and every sampled step
count (always a positive power of two), the derived iteration count written
under max_epochs satisfies the floor-division contract
max_epochs * n_steps less-or-equal n_timesteps less-than (max_epochs + 1) *
n_steps, equals the floor of n_timesteps / n_steps (computed
deterministically from the draws), and is never itself recorded as a sampled
parameter. -/
theorem sample_max_epochs_floor (b : BaseCfg) (trial : Trial)
    (hpos : 0 < b.nTimesteps) :
    ∀ ns me : ℚ,
      (sample_td3_params trial (mkBaseStore b) 0).store.readPath
          (sample_td3_params trial (mkBaseStore b) 0).params ["algorithm", "n_steps"] =
        Value.num ns →
      (sample_td3_params trial (mkBaseStore b) 0).store.readPath
          (sample_td3_params trial (mkBaseStore b) 0).params ["algorithm", "max_epochs"] =
        Value.num me →
      0 < ns ∧
      ∃ k : ℤ, me = (k : ℚ) ∧ k = Int.floor ((b.nTimesteps : ℚ) / ns) ∧
        (k : ℚ) * ns ≤ (b.nTimesteps : ℚ) ∧ (b.nTimesteps : ℚ) < ((k : ℚ) + 1) * ns ∧
        "max_epochs" ∉ ((sample_td3_params trial (mkBaseStore b) 0).record.map Prod.fst) := by
  intro ns me h1 h2
  have hkey1 : (sample_td3_params trial (mkBaseStore b) 0).store.readPath
      (sample_td3_params trial (mkBaseStore b) 0).params ["algorithm", "n_steps"] =
      Value.num ((2 : ℚ) ^ nsExp b trial) := by
    rw [sample_result_eq]; rfl
  have hkey2 : (sample_td3_params trial (mkBaseStore b) 0).store.readPath
      (sample_td3_params trial (mkBaseStore b) 0).params ["algorithm", "max_epochs"] =
      Value.num (meDerived b trial : ℚ) := by
    rw [sample_result_eq]; rfl
  rw [hkey1] at h1
  rw [hkey2] at h2
  injection h1 with h1
  injection h2 with h2
  subst h1
  subst h2
  have hrec : ((sample_td3_params trial (mkBaseStore b) 0).record.map Prod.fst) =
      ["discount_factor", "n_steps", "buffer_size", "batch_size", "tau_target",
       "action_std", "actor_hidden_size", "critic_hidden_size", "actor_lr", "critic_lr"] := by
    rw [sample_result_eq]; rfl
  have hns : (0 : ℚ) < (2 : ℚ) ^ nsExp b trial := zpow_pos (by norm_num) _
  refine ⟨hns, meDerived b trial, rfl, rfl, ?_, ?_, ?_⟩
  · have hfl : ((meDerived b trial : ℚ)) ≤ (b.nTimesteps : ℚ) / (2 : ℚ) ^ nsExp b trial :=
      Int.floor_le _
    exact (le_div_iff₀ hns).mp hfl
  · have hfl : (b.nTimesteps : ℚ) / (2 : ℚ) ^ nsExp b trial < (meDerived b trial : ℚ) + 1 :=
      Int.lt_floor_add_one _
    have := (div_lt_iff₀ hns).mp hfl
    exact_mod_cast this
  · rw [hrec]
    decide

/-- Claim C10: the action-noise hyperparameter is recorded in the trial's
parameter record under the name action_std while the sampled value is written
to the configuration field algorithm.action_noise; the record contains the
key action_std and no key action_noise. -/
theorem sample_action_std_key (b : BaseCfg) (trial : Trial) :
    ("action_std", anDraw b trial) ∈ (sample_td3_params trial (mkBaseStore b) 0).record ∧
    "action_noise" ∉ ((sample_td3_params trial (mkBaseStore b) 0).record.map Prod.fst) ∧
    (sample_td3_params trial (mkBaseStore b) 0).store.readPath
        (sample_td3_params trial (mkBaseStore b) 0).params ["algorithm", "action_noise"] =
      Value.num (anDraw b trial) := by
  have hrec : ((sample_td3_params trial (mkBaseStore b) 0).record.map Prod.fst) =
      ["discount_factor", "n_steps", "buffer_size", "batch_size", "tau_target",
       "action_std", "actor_hidden_size", "critic_hidden_size", "actor_lr", "critic_lr"] := by
    rw [sample_result_eq]; rfl
  refine ⟨?_, ?_, ?_⟩
  · rw [sample_result_eq]
    exact List.mem_cons_of_mem _ (List.mem_cons_of_mem _ (List.mem_cons_of_mem _
      (List.mem_cons_of_mem _ (List.mem_cons_of_mem _ (List.mem_cons_self _ _)))))
  · rw [hrec]
    decide
  · rw [sample_result_eq]; rfl

/-- One scheduled loop iteration with agent still None: the training call is
made once; a raise propagates, a normal return is followed by the
AttributeError raised by reading is_eval on None. -/
theorem runEpochs_one (trial : Trial) (f : TrainStep) (c : Nat) (e : Nat) (s : Store) :
    runEpochs trial f c Option.none 1 e s =
      (match f s c Option.none with
       | (s1, Except.error err) => (s1, Except.error err)
       | (s1, Except.ok _) => (s1, Except.error PyExc.attributeError)) := by
  rcases hR : f s c Option.none with ⟨s1, r⟩
  simp only [runEpochs, hR]

/-- objective on the base configuration: the saved max_epoch is read, the
field is set to 1, the loop runs its single iteration, and the outcome of the
one training call decides the result. -/
theorem objective_on_base (b : BaseCfg) (trial : Trial) (runAlgo : TrainStep) :
    objective trial (mkBaseStore b) 0 runAlgo =
      objAfterStep (runAlgo (preStore b trial) 29 Option.none) := by
  simp only [objective, sample_result_eq,
    show (sampleNF b trial).params = 29 from rfl,
    show (sampleNF b trial).store.derefPathOpt 29 ["algorithm"] = Option.some 24 from rfl,
    show (sampleNF b trial).store.readPath 29 ["algorithm", "max_epoch"] =
      Value.num b.maxEpoch from rfl,
    show (sampleNF b trial).store.writeAt 24 "max_epoch" (Value.num 1) =
      preStore b trial from rfl,
    show ((preStore b trial).readPath 29 ["algorithm", "max_epoch"]).loopCount = 1 from rfl,
    runEpochs_one]
  rcases hR : runAlgo (preStore b trial) 29 Option.none with ⟨s1, r⟩
  cases r with
  | ok ag => simp only [objAfterStep]
  | error e => cases e <;> simp only [objAfterStep]

/-- Claim C2: for every trial whose training step raises the designated
value-validity failure (an AssertionError) — there is only a first step —
objective catches it and returns the NaN sentinel instead of propagating the
exception, while an exception of any other type is not caught at this layer
and propagates. -/
theorem objective_assertion_nan_other_propagates (b : BaseCfg) (trial : Trial) :
    (∀ runAlgo : TrainStep,
      (∀ s c a, runAlgo s c a = (s, Except.error PyExc.assertionError)) →
      (objective trial (mkBaseStore b) 0 runAlgo).2 = Except.ok PyFloat.nan) ∧
    (∀ (runAlgo : TrainStep) (e : PyExc), e ≠ PyExc.assertionError →
      (∀ s c a, runAlgo s c a = (s, Except.error e)) →
      (objective trial (mkBaseStore b) 0 runAlgo).2 = Except.error e) := by
  constructor
  · intro runAlgo h
    rw [objective_on_base, h]
    rfl
  · intro runAlgo e hne h
    rw [objective_on_base, h]
    cases e with
    | assertionError => exact absurd rfl hne
    | attributeError => rfl
    | trialPruned => rfl
    | keyboardInterrupt => rfl
    | valueError => rfl
    | other n => rfl

/-- Claim C9: objective is not atomic with respect to the trial's
configuration on the error path: when the training step raises
AssertionError (leaving the heap as it found it), objective returns NaN and
the returned configuration still has algorithm.max_epoch equal to 1 — the
saved pre-loop value is restored only on the non-error path inside the try
block. -/
theorem objective_assertion_max_epoch_left_one (b : BaseCfg) (trial : Trial)
    (runAlgo : TrainStep)
    (h : ∀ s c a, runAlgo s c a = (s, Except.error PyExc.assertionError)) :
    (objective trial (mkBaseStore b) 0 runAlgo).2 = Except.ok PyFloat.nan ∧
    (objective trial (mkBaseStore b) 0 runAlgo).1.readPath
        (sample_td3_params trial (mkBaseStore b) 0).params ["algorithm", "max_epoch"] =
      Value.num 1 := by
  rw [objective_on_base, h, sample_result_eq]
  exact ⟨rfl, rfl⟩

/-- Claim C1 (evidence of the code defect): with a training-step function
that returns normally, objective does not run the derived number of steps
and does not return the trained agent's last mean reward — the result of the
dynamically invoked call on line 69 is bound to nothing, the agent local is
still None at the agent.is_eval read, and objective raises AttributeError on
its very first iteration. -/
theorem objective_normal_step_attribute_error (b : BaseCfg) (trial : Trial)
    (runAlgo : TrainStep) (ag : Agent)
    (h : ∀ s c a, runAlgo s c a = (s, Except.ok ag)) :
    (objective trial (mkBaseStore b) 0 runAlgo).2 = Except.error PyExc.attributeError := by
  rw [objective_on_base, h]
  rfl

/-- Claim C8: config.algorithm.max_epoch is assigned 1 immediately before the
loop, so the loop body runs exactly once regardless of the sampled
configuration (in particular of the derived max_epochs value): a counting
wrapper around any store-preserving training step records exactly one
invocation. -/
theorem objective_trains_single_epoch (b : BaseCfg) (trial : Trial) (f : TrainStep)
    (hpres : ∀ s c a, (f s c a).1 = s) :
    ((objective trial (mkBaseStore b) 0 (countingStep f)).1).read 100 "calls" =
      Value.num 1 := by
  rw [objective_on_base]
  rw [show countingStep f (preStore b trial) 29 Option.none =
      f ((preStore b trial).writeAt 100 "calls"
        (Value.num (((preStore b trial).read 100 "calls").toQ + 1))) 29 Option.none from rfl]
  rcases hR : f ((preStore b trial).writeAt 100 "calls"
      (Value.num (((preStore b trial).read 100 "calls").toQ + 1))) 29 Option.none with ⟨s1, r⟩
  have hs1 : s1 = (preStore b trial).writeAt 100 "calls"
      (Value.num (((preStore b trial).read 100 "calls").toQ + 1)) := by
    have hp := hpres ((preStore b trial).writeAt 100 "calls"
      (Value.num (((preStore b trial).read 100 "calls").toQ + 1))) 29 Option.none
    rw [hR] at hp
    exact hp
  subst hs1
  have hread : Store.read ((preStore b trial).writeAt 100 "calls"
      (Value.num (((preStore b trial).read 100 "calls").toQ + 1))) 100 "calls" =
      Value.num 1 := by
    have h0 : ((preStore b trial).read 100 "calls").toQ = 0 := rfl
    calc Store.read ((preStore b trial).writeAt 100 "calls"
          (Value.num (((preStore b trial).read 100 "calls").toQ + 1))) 100 "calls"
        = Value.num (((preStore b trial).read 100 "calls").toQ + 1) := rfl
      _ = Value.num (0 + 1) := by rw [h0]
      _ = Value.num 1 := by norm_num
  cases r with
  | ok ag => exact hread
  | error e => cases e <;> exact hread

/-- Claim C3 counterexample: with a configured warm-up-step count of 3 the
pruner constructed by tune receives 3 // 3 = 1 warm-up steps and is willing
to prune at step 1, before the configured count has elapsed. -/
theorem tune_pruner_prunes_before_configured_warmup :
    (tunePruner { n_startup_trials := 0, n_warmup_steps := 3 }).pruneNow 1 [10] 1 0 = true ∧
    1 < ({ n_startup_trials := 0, n_warmup_steps := 3 } : StudyCfg).n_warmup_steps := by
  constructor
  · decide
  · decide

/-- Claim C3 (amended): the pruning policy constructed by tune never prunes
a trial before a third (floor division) of cfg.study.n_warmup_steps has
elapsed, and never prunes any trial before cfg.study.n_startup_trials trials
of the study have been reached. -/
theorem tune_pruner_warmup_third (s : StudyCfg) (completed : Nat) (others : List ℚ)
    (step : Nat) (score : ℚ)
    (h : step < s.n_warmup_steps / 3 ∨ completed < s.n_startup_trials) :
    (tunePruner s).pruneNow completed others step score = false := by
  rcases h with h | h
  · have hb : decide (s.n_warmup_steps / 3 ≤ step) = false := decide_eq_false (by omega)
    simp [tunePruner, MedianPruner.pruneNow, hb]
  · have hb : decide (s.n_startup_trials ≤ completed) = false := decide_eq_false (by omega)
    simp [tunePruner, MedianPruner.pruneNow, hb]

theorem bestStep_isSome (acc : Option TrialRec) (t : TrialRec) :
    (bestStep acc t).isSome = true := by
  cases acc with
  | none => rfl
  | some bt =>
      simp only [bestStep]
      split <;> rfl

theorem foldl_bestStep_some (l : List TrialRec) :
    ∀ acc : Option TrialRec, acc.isSome = true → (l.foldl bestStep acc).isSome = true := by
  induction l with
  | nil => intro acc h; exact h
  | cons x xs ih =>
      intro acc _
      rw [List.foldl_cons]
      exact ih (bestStep acc x) (bestStep_isSome acc x)

/-- Claim C7: if the external interrupt (KeyboardInterrupt) reaches tune
during the search loop, tune exits the loop without re-raising, retains
every trial recorded before the interrupt, and still produces the report
(best-trial summary and trial table) exactly as on normal completion,
provided at least one trial completed. -/
theorem tune_interrupt_still_reports (ts : List TrialRec)
    (h : ∃ t ∈ ts, t.state = TrialState.completed) :
    ∃ rep : TuneReport,
      tune (OptimizeOutcome.raised PyExc.keyboardInterrupt ts) = Except.ok rep ∧
      rep.numFinished = ts.length ∧ rep.csvRows = ts ∧
      tune (OptimizeOutcome.raised PyExc.keyboardInterrupt ts) =
        tune (OptimizeOutcome.finished ts) := by
  obtain ⟨t, hmem, hc⟩ := h
  have hmemC : t ∈ completedTrials ts := List.mem_filter.mpr ⟨hmem, by simp [hc]⟩
  have hne : completedTrials ts ≠ [] := by
    intro hnil
    rw [hnil] at hmemC
    exact absurd hmemC (List.not_mem_nil t)
  obtain ⟨c, cs, hcc⟩ := List.exists_cons_of_ne_nil hne
  have hsome : (bestTrial ts).isSome = true := by
    unfold bestTrial
    rw [hcc, List.foldl_cons]
    exact foldl_bestStep_some cs (bestStep Option.none c) (bestStep_isSome Option.none c)
  obtain ⟨bt, hbt⟩ := Option.isSome_iff_exists.mp hsome
  refine ⟨⟨ts.length, bt.value, bt.params, bt.userAttrs, ts⟩, ?_, rfl, rfl, rfl⟩
  show tuneReportOf ts = _
  simp [tuneReportOf, hbt]

/-- Witness for C4 at a concrete configuration and draw source. -/
theorem sample_pow2_params_witness :
    b0.nsMin ≤ b0.nsMax ∧
    (∃ e : ℤ, b0.nsMin ≤ e ∧ e ≤ b0.nsMax ∧
      (sample_td3_params trial0 (mkBaseStore b0) 0).store.readPath
          (sample_td3_params trial0 (mkBaseStore b0) 0).params ["algorithm", "n_steps"] =
        Value.num ((2 : ℚ) ^ e) ∧
      (2 : ℚ) ^ b0.nsMin ≤ (2 : ℚ) ^ e ∧ (2 : ℚ) ^ e ≤ (2 : ℚ) ^ b0.nsMax) :=
  ⟨by decide,
   (sample_pow2_params b0 trial0
     (by
       intro name lo hi hle
       constructor <;> simp [trial0, Int.ceil_intCast] <;> omega)
     (by decide) (by decide) (by decide)).1⟩

/-- Witness for C5 at a concrete configuration and draw source: the sampled
step count is 128 and the derived iteration count is 1000000 // 128 = 7812. -/
theorem sample_max_epochs_floor_witness :
    0 < b0.nTimesteps ∧
    (0 < (128 : ℚ) ∧
     ∃ k : ℤ, (7812 : ℚ) = (k : ℚ) ∧ k = Int.floor ((b0.nTimesteps : ℚ) / 128) ∧
       (k : ℚ) * 128 ≤ (b0.nTimesteps : ℚ) ∧ (b0.nTimesteps : ℚ) < ((k : ℚ) + 1) * 128 ∧
       "max_epochs" ∉ ((sample_td3_params trial0 (mkBaseStore b0) 0).record.map Prod.fst)) :=
  ⟨by decide,
   sample_max_epochs_floor b0 trial0 (by decide) 128 7812
     (by
       rw [sample_result_eq]
       rw [show (sampleNF b0 trial0).store.readPath (sampleNF b0 trial0).params
           ["algorithm", "n_steps"] = Value.num ((2 : ℚ) ^ nsExp b0 trial0) from rfl]
       have h7 : nsExp b0 trial0 = 7 := by
         simp [nsExp, trial0, b0, Int.ceil_intCast]
       rw [h7]
       congr 1
       norm_num)
     (by
       rw [sample_result_eq]
       rw [show (sampleNF b0 trial0).store.readPath (sampleNF b0 trial0).params
           ["algorithm", "max_epochs"] = Value.num ((meDerived b0 trial0 : ℤ) : ℚ) from rfl]
       have h7 : nsExp b0 trial0 = 7 := by
         simp [nsExp, trial0, b0, Int.ceil_intCast]
       have hme : meDerived b0 trial0 = 7812 := by
         rw [meDerived, h7]
         rw [show ((b0.nTimesteps : ℤ) : ℚ) = 1000000 from by norm_num [b0]]
         rw [show (2 : ℚ) ^ (7 : ℤ) = 128 from by norm_num]
         rw [Int.floor_eq_iff]
         constructor <;> norm_num
       rw [hme]
       congr 1)⟩

/-- Witness for C6: after sampling and a mutation of the returned config's
algorithm node, the base configuration's discount-factor lower bound still
reads 9/10. -/
theorem sample_independent_copy_witness :
    ((sample_td3_params trial0 (mkBaseStore b0) 0).store.derefPathOpt
        (sample_td3_params trial0 (mkBaseStore b0) 0).params ["algorithm"] =
      Option.some 24) ∧
    ((sample_td3_params trial0 (mkBaseStore b0) 0).store.writeAt 24 "discount_factor"
        (Value.num 5)).readPath 0 ["algorithm", "discount_factor", "min"] =
      Value.num (9 / 10) :=
  ⟨by rw [sample_result_eq]; rfl,
   ((sample_independent_copy b0 trial0).2 ["algorithm"] "discount_factor" (Value.num 5) 24
       (by rw [sample_result_eq]; rfl)
       ["algorithm", "discount_factor", "min"]).trans rfl⟩

/-- Witness for C2: the assertion-raising step yields NaN, a different
exception type propagates. -/
theorem objective_assertion_nan_other_propagates_witness :
    (objective trial0 (mkBaseStore b0) 0 stepAssert).2 = Except.ok PyFloat.nan ∧
    (objective trial0 (mkBaseStore b0) 0 stepOther).2 = Except.error (PyExc.other 0) :=
  ⟨(objective_assertion_nan_other_propagates b0 trial0).1 stepAssert (fun _ _ _ => rfl),
   (objective_assertion_nan_other_propagates b0 trial0).2 stepOther (PyExc.other 0)
     (by decide) (fun _ _ _ => rfl)⟩

/-- Witness for C9 at a concrete configuration. -/
theorem objective_assertion_max_epoch_left_one_witness :
    (objective trial0 (mkBaseStore b0) 0 stepAssert).2 = Except.ok PyFloat.nan ∧
    (objective trial0 (mkBaseStore b0) 0 stepAssert).1.readPath
        (sample_td3_params trial0 (mkBaseStore b0) 0).params ["algorithm", "max_epoch"] =
      Value.num 1 :=
  objective_assertion_max_epoch_left_one b0 trial0 stepAssert (fun _ _ _ => rfl)

/-- Witness for C1 at a concrete configuration. -/
theorem objective_normal_step_attribute_error_witness :
    (objective trial0 (mkBaseStore b0) 0 stepOk).2 = Except.error PyExc.attributeError :=
  objective_normal_step_attribute_error b0 trial0 stepOk ag0 (fun _ _ _ => rfl)

/-- Witness for C8 at a concrete configuration. -/
theorem objective_trains_single_epoch_witness :
    ((objective trial0 (mkBaseStore b0) 0 (countingStep stepOk)).1).read 100 "calls" =
      Value.num 1 :=
  objective_trains_single_epoch b0 trial0 stepOk (fun _ _ _ => rfl)

/-- Witness for the amended C3 at a concrete study configuration: with nine
configured warm-up steps the pruner never prunes before step 3. -/
theorem tune_pruner_warmup_third_witness :
    (2 < ({ n_startup_trials := 2, n_warmup_steps := 9 } : StudyCfg).n_warmup_steps / 3 ∨
      5 < ({ n_startup_trials := 2, n_warmup_steps := 9 } : StudyCfg).n_startup_trials) ∧
    (tunePruner { n_startup_trials := 2, n_warmup_steps := 9 }).pruneNow 5 [10] 2 0 = false :=
  ⟨Or.inl (by decide),
   tune_pruner_warmup_third { n_startup_trials := 2, n_warmup_steps := 9 } 5 [10] 2 0
     (Or.inl (by decide))⟩

/-- Witness for C7 on a concrete trial table with two completed trials and a
failed one. -/
theorem tune_interrupt_still_reports_witness :
    (∃ t ∈ trialsW, t.state = TrialState.completed) ∧
    (∃ rep : TuneReport,
      tune (OptimizeOutcome.raised PyExc.keyboardInterrupt trialsW) = Except.ok rep ∧
      rep.numFinished = trialsW.length ∧ rep.csvRows = trialsW ∧
      tune (OptimizeOutcome.raised PyExc.keyboardInterrupt trialsW) =
        tune (OptimizeOutcome.finished trialsW)) :=
  ⟨by decide, tune_interrupt_still_reports trialsW (by decide)⟩
